import Mathlib

/-!
Shallow embedding of the Kyvern Shield circuit-breaker program
(`programs/circuit-breaker/src/lib.rs`) and proofs about its
transaction-validation policy, circuit-breaker state machine and
administrative operations.

Machine integers are modelled as `Nat` / `Int` with explicit wrapping:
`u8` arithmetic wraps modulo 2^8, `u64` modulo 2^64, and `i64` addition
wraps into the two's-complement range `[-2^63, 2^63)`, matching the
release-mode semantics of the Rust `+=` / `+` used by the source.
Solana `Pubkey` values are modelled as abstract identifiers (`Nat`).
Event emission has no effect on the stored record and is omitted.
-/

namespace CircuitBreaker

/-- Wrapping `u8` arithmetic. -/
def wrapU8 (n : Nat) : Nat := n % 2 ^ 8

/-- Wrapping `u64` arithmetic. -/
def wrapU64 (n : Nat) : Nat := n % 2 ^ 64

/-- Wrapping `i64` arithmetic: reduce into `[-2^63, 2^63)`. -/
def wrapI64 (n : Int) : Int := (n + 2 ^ 63) % 2 ^ 64 - 2 ^ 63

/-- Solana addresses, abstract. -/
abbrev Pubkey := Nat

/-- `ShieldConfig` from the source: per-agent protection configuration. -/
structure ShieldConfig where
  max_transaction_value : Nat
  daily_spend_limit : Nat
  approval_threshold : Nat
  anomaly_threshold : Nat
  time_window_seconds : Int
  cooldown_seconds : Int
  allowed_programs : List Pubkey
  blocked_programs : List Pubkey
  deriving DecidableEq

/-- `CircuitState` from the source. -/
inductive CircuitState
  | Closed
  | Open
  | HalfOpen
  deriving DecidableEq

/-- `Shield` account from the source: the persisted protection record. -/
structure Shield where
  authority : Pubkey
  agent_wallet : Pubkey
  config : ShieldConfig
  state : CircuitState
  anomaly_count : Nat
  last_triggered_at : Int
  cooldown_ends_at : Int
  total_transactions : Nat
  blocked_transactions : Nat
  created_at : Int
  bump : Nat
  deriving DecidableEq

/-- `TransactionRecord` from the source. The signature bytes are carried
but never inspected by the logic. -/
structure TransactionRecord where
  signature : List Nat
  program_id : Pubkey
  value : Nat
  tx_type : Nat
  deriving DecidableEq

/-- `TransactionResult` from the source. -/
inductive TransactionResult
  | Allowed
  | Flagged
  | Blocked
  deriving DecidableEq

/-- `ValidationResult` from the source, with its reason payloads. -/
inductive ValidationResult
  | Allowed
  | Anomaly (reason : String)
  | Blocked (reason : String)
  deriving DecidableEq

/-- `validate_transaction` from the source. The Rust function returns
`Result<ValidationResult>` but never errors, so it is a total function
here. Rust `Vec::contains` is list membership. -/
def validate_transaction (shield : Shield) (tx : TransactionRecord) : ValidationResult :=
  let config := shield.config
  if tx.program_id ∈ config.blocked_programs then
    .Blocked "Program is in blocklist"
  else if config.allowed_programs ≠ [] ∧ tx.program_id ∉ config.allowed_programs then
    .Anomaly "Program not in allowlist"
  else if tx.value > config.max_transaction_value then
    .Anomaly ("Transaction value " ++ toString tx.value ++ " exceeds max "
      ++ toString config.max_transaction_value)
  else if tx.value > config.approval_threshold then
    .Anomaly ("Transaction value " ++ toString tx.value ++ " requires approval (threshold: "
      ++ toString config.approval_threshold ++ ")")
  else
    .Allowed

/-- Result of one `record_transaction` call: the updated record, the
returned `TransactionResult`, and how many times `validate_transaction`
was invoked during the call (0 or 1), which instruments the
"policy is never evaluated" behaviour of the open-circuit short-circuit. -/
structure RecordOutcome where
  shield : Shield
  result : TransactionResult
  policy_evals : Nat
  deriving DecidableEq

/-- Body of `record_transaction` from the point where the circuit-open
short-circuit has been passed: evaluate the policy, bump
`total_transactions`, and apply the verdict to the record. -/
def evalRecord (s : Shield) (tx : TransactionRecord) (now : Int) : RecordOutcome :=
  let vr := validate_transaction s tx
  let s1 : Shield := { s with total_transactions := wrapU64 (s.total_transactions + 1) }
  match vr with
  | .Allowed =>
      if s1.state = CircuitState.HalfOpen then
        { shield := { s1 with state := CircuitState.Closed, anomaly_count := 0 }
          result := .Allowed
          policy_evals := 1 }
      else
        { shield := s1, result := .Allowed, policy_evals := 1 }
  | .Anomaly _ =>
      let s2 : Shield := { s1 with anomaly_count := wrapU8 (s1.anomaly_count + 1) }
      if s2.anomaly_count ≥ s2.config.anomaly_threshold then
        { shield := { s2 with
            state := CircuitState.Open
            last_triggered_at := now
            cooldown_ends_at := wrapI64 (now + s2.config.cooldown_seconds) }
          result := .Flagged
          policy_evals := 1 }
      else
        { shield := s2, result := .Flagged, policy_evals := 1 }
  | .Blocked _ =>
      { shield := { s1 with blocked_transactions := wrapU64 (s1.blocked_transactions + 1) }
        result := .Blocked
        policy_evals := 1 }

/-- `record_transaction` from the source: if the circuit is Open and the
cooldown has not elapsed, block without evaluating the policy; if Open
with the cooldown elapsed, move to HalfOpen first; then evaluate. -/
def record_transaction (s : Shield) (tx : TransactionRecord) (now : Int) : RecordOutcome :=
  if s.state = CircuitState.Open then
    if now < s.cooldown_ends_at then
      { shield := { s with blocked_transactions := wrapU64 (s.blocked_transactions + 1) }
        result := .Blocked
        policy_evals := 0 }
    else
      evalRecord { s with state := CircuitState.HalfOpen } tx now
  else
    evalRecord s tx now

/-- `trigger_circuit_breaker` from the source (the `reason` argument is
only echoed into an event and does not affect the record). -/
def trigger_circuit_breaker (s : Shield) (now : Int) : Shield :=
  { s with
    state := CircuitState.Open
    last_triggered_at := now
    cooldown_ends_at := wrapI64 (now + s.config.cooldown_seconds) }

/-- `reset_circuit_breaker` from the source. -/
def reset_circuit_breaker (s : Shield) : Shield :=
  { s with state := CircuitState.Closed, anomaly_count := 0, cooldown_ends_at := 0 }

/-- `update_config` from the source: wholesale replacement of the config. -/
def update_config (s : Shield) (new_config : ShieldConfig) : Shield :=
  { s with config := new_config }

/-- The `initialize` instruction from the source, as the record it creates. -/
def initShield (authority agent_wallet : Pubkey) (config : ShieldConfig)
    (now : Int) (bump : Nat) : Shield :=
  { authority := authority
    agent_wallet := agent_wallet
    config := config
    state := CircuitState.Closed
    anomaly_count := 0
    last_triggered_at := 0
    cooldown_ends_at := 0
    total_transactions := 0
    blocked_transactions := 0
    created_at := now
    bump := bump }

/-- The `has_one = authority` + `Signer` constraint of the `UpdateConfig`
accounts struct: the call commits only when the caller is the record's
authority; `none` models Anchor aborting the instruction with the record
untouched. -/
def update_config_checked (caller : Pubkey) (s : Shield) (c : ShieldConfig) : Option Shield :=
  if caller = s.authority then some (update_config s c) else none

/-- `TriggerCircuitBreaker` accounts constraint (`has_one = authority`). -/
def trigger_circuit_breaker_checked (caller : Pubkey) (s : Shield) (now : Int) : Option Shield :=
  if caller = s.authority then some (trigger_circuit_breaker s now) else none

/-- `ResetCircuitBreaker` accounts constraint (`has_one = authority`). -/
def reset_circuit_breaker_checked (caller : Pubkey) (s : Shield) : Option Shield :=
  if caller = s.authority then some (reset_circuit_breaker s) else none

/-- `CloseShield` accounts constraint (`has_one = authority`,
`close = authority`): `some ()` means the account is removed. -/
def close_shield_checked (caller : Pubkey) (s : Shield) : Option Unit :=
  if caller = s.authority then some () else none

/-- One mutating call on an existing record, for reachability statements. -/
inductive Op
  | record (tx : TransactionRecord) (now : Int)
  | trigger (now : Int)
  | reset
  | updateCfg (c : ShieldConfig)

/-- Apply one operation to a record. -/
def applyOp (s : Shield) : Op → Shield
  | .record tx now => (record_transaction s tx now).shield
  | .trigger now => trigger_circuit_breaker s now
  | .reset => reset_circuit_breaker s
  | .updateCfg c => update_config s c

/-- Apply a sequence of operations; `applyOps (initShield ...) ops` is the
set of reachable records. -/
def applyOps (s : Shield) (ops : List Op) : Shield :=
  ops.foldl applyOp s

/-- Apply one operation while also counting, as ghost state, the calls
that were rejected purely because the circuit was Open (the calls with
`policy_evals = 0`). -/
def applyOpG (sg : Shield × Nat) (op : Op) : Shield × Nat :=
  match op with
  | .record tx now =>
      let o := record_transaction sg.1 tx now
      (o.shield, if o.policy_evals = 0 then sg.2 + 1 else sg.2)
  | _ => (applyOp sg.1 op, sg.2)

/-- Apply a sequence of operations with the open-rejection ghost counter. -/
def applyOpsG (sg : Shield × Nat) (ops : List Op) : Shield × Nat :=
  ops.foldl applyOpG sg

/-- Which of the spec's five ordered validation rules fires first. -/
inductive PolicyRule
  | blockedBlocklist
  | anomalyAllowlist
  | anomalyMaxValue
  | anomalyApproval
  | allowed
  deriving DecidableEq

/-- The ordered, first-match-wins rule table exactly as the spec words it:
blocklist, then allowlist, then max value, then approval threshold, else
allowed. Written from the spec for comparison with `validate_transaction`. -/
def firstMatchRule (config : ShieldConfig) (tx : TransactionRecord) : PolicyRule :=
  if tx.program_id ∈ config.blocked_programs then .blockedBlocklist
  else if config.allowed_programs ≠ [] ∧ tx.program_id ∉ config.allowed_programs then
    .anomalyAllowlist
  else if tx.value > config.max_transaction_value then .anomalyMaxValue
  else if tx.value > config.approval_threshold then .anomalyApproval
  else .allowed

/-- Ghost invariant for the counter claims: the blocked counter never
exceeds the total counter plus the number of open-circuit rejections,
and after `n` operations every counter is at most `n`. -/
def InvG (sg : Shield × Nat) (n : Nat) : Prop :=
  sg.1.blocked_transactions ≤ sg.1.total_transactions + sg.2 ∧
  sg.1.total_transactions ≤ n ∧ sg.1.blocked_transactions ≤ n ∧ sg.2 ≤ n

/-- Configurations whose cooldown is positive and small enough that
`now + cooldown_seconds` cannot overflow `i64` for bounded timestamps. -/
def goodCfg (c : ShieldConfig) : Prop :=
  0 < c.cooldown_seconds ∧ c.cooldown_seconds < 2 ^ 62

/-- Bounded, non-negative timestamps and overflow-safe configurations,
per operation. -/
def goodOp : Op → Prop
  | .record _ now => 0 ≤ now ∧ now < 2 ^ 62
  | .trigger now => 0 ≤ now ∧ now < 2 ^ 62
  | .reset => True
  | .updateCfg c => goodCfg c

/-- Invariant carried through traces for the Open-cooldown claim. -/
def openInv (s : Shield) : Prop :=
  goodCfg s.config ∧
  (s.state = CircuitState.Open → s.last_triggered_at < s.cooldown_ends_at)

/-- Concrete configuration: anomaly threshold 1, 60-second cooldown, a
maximum transaction value of 0 so that any positive value is an anomaly. -/
def cfgA : ShieldConfig :=
  { max_transaction_value := 0
    daily_spend_limit := 0
    approval_threshold := 0
    anomaly_threshold := 1
    time_window_seconds := 0
    cooldown_seconds := 60
    allowed_programs := []
    blocked_programs := [] }

/-- Concrete configuration with a zero cooldown, so the breaker re-opens
and is immediately probed again on every call. -/
def cfgB : ShieldConfig :=
  { cfgA with cooldown_seconds := 0 }

/-- Concrete configuration with program 7 both blocklisted and
allowlisted, and nonzero value limits. -/
def cfgW : ShieldConfig :=
  { max_transaction_value := 1000
    daily_spend_limit := 0
    approval_threshold := 500
    anomaly_threshold := 2
    time_window_seconds := 0
    cooldown_seconds := 60
    allowed_programs := [7]
    blocked_programs := [7] }

/-- Concrete transaction of value 1 to program 5. -/
def txA : TransactionRecord :=
  { signature := [], program_id := 5, value := 1, tx_type := 0 }

/-- Concrete transaction of value 1 to program 7. -/
def txW : TransactionRecord :=
  { signature := [], program_id := 7, value := 1, tx_type := 0 }

/-- Three calls: one anomaly that trips the breaker, then two calls
during the cooldown. -/
def opsC1 : List Op :=
  [Op.record txA 0, Op.record txA 1, Op.record txA 1]

/-- The record reached from `initialize` with `cfgB` by `n` anomaly
calls at time 0: every call trips the breaker with a zero cooldown, so
the next call is probed in HalfOpen and anomaly_count keeps growing. -/
def anomalyTrace (n : Nat) : Shield :=
  applyOps (initShield 0 1 cfgB 0 0) (List.replicate n (Op.record txA 0))

/-- Concrete record in the Open state with a pending cooldown. -/
def sOpenW : Shield :=
  { initShield 0 1 cfgA 0 0 with
    state := CircuitState.Open
    cooldown_ends_at := 100 }

/-- Concrete record with a saturated anomaly counter. -/
def s255W : Shield :=
  { initShield 0 1 cfgB 0 0 with anomaly_count := 255 }

/-- Whether a validation verdict is the Anomaly variant. -/
def isAnomaly : ValidationResult → Bool
  | .Anomaly _ => true
  | _ => false

/-- Changing only the circuit state of a record does not change how a
transaction is validated (the policy reads only the configuration). -/
theorem validate_transaction_state_irrel (s : Shield) (st : CircuitState)
    (tx : TransactionRecord) :
    validate_transaction { s with state := st } tx = validate_transaction s tx := rfl

/-- Reducing a value below the modulus is the identity. -/
theorem wrapU64_eq_of_lt {x : Nat} (h : x < 2 ^ 64) : wrapU64 x = x :=
  Nat.mod_eq_of_lt h

/-- A wrapped increment never fixes its argument. -/
theorem wrapU64_succ_ne (x : Nat) : wrapU64 (x + 1) ≠ x := by
  have h64 : (2 : Nat) ^ 64 = 18446744073709551616 := by norm_num
  unfold wrapU64
  rw [h64]
  omega

/-- Wrapping is the identity on the i64 range. -/
theorem wrapI64_eq_of_bounds {x : Int} (h1 : -(2 ^ 63) ≤ x) (h2 : x < 2 ^ 63) :
    wrapI64 x = x := by
  have e1 : (2 : Int) ^ 63 = 9223372036854775808 := by norm_num
  have e2 : (2 : Int) ^ 64 = 18446744073709551616 := by norm_num
  unfold wrapI64
  rw [e1] at h1 h2 ⊢
  rw [e2]
  omega

/-- A positive, bounded cooldown added to a bounded non-negative
timestamp stays in the i64 range and exceeds the timestamp. -/
theorem now_lt_wrap_cooldown {cd now : Int} (h1 : 0 < cd) (h2 : cd < 2 ^ 62)
    (h3 : 0 ≤ now) (h4 : now < 2 ^ 62) : now < wrapI64 (now + cd) := by
  have hw : wrapI64 (now + cd) = now + cd := by
    refine wrapI64_eq_of_bounds ?_ ?_
    · have h63 : (0 : Int) ≤ 2 ^ 63 := by norm_num
      omega
    · have h62 : (2 : Int) ^ 62 + 2 ^ 62 ≤ 2 ^ 63 := by norm_num
      omega
  omega

/-- The evaluated path always invokes the policy exactly once. -/
theorem evalRecord_policy_evals (s : Shield) (tx : TransactionRecord) (now : Int) :
    (evalRecord s tx now).policy_evals = 1 := by
  unfold evalRecord
  cases validate_transaction s tx <;> dsimp only <;> split <;> rfl

/-- The evaluated path increments the total counter exactly once. -/
theorem evalRecord_total (s : Shield) (tx : TransactionRecord) (now : Int) :
    (evalRecord s tx now).shield.total_transactions = wrapU64 (s.total_transactions + 1) := by
  unfold evalRecord
  cases validate_transaction s tx <;> dsimp only <;> split <;> rfl

/-- The evaluated path bumps the blocked counter at most once. -/
theorem evalRecord_blocked (s : Shield) (tx : TransactionRecord) (now : Int) :
    (evalRecord s tx now).shield.blocked_transactions = s.blocked_transactions ∨
    (evalRecord s tx now).shield.blocked_transactions = wrapU64 (s.blocked_transactions + 1) := by
  unfold evalRecord
  cases validate_transaction s tx <;> dsimp only <;> (try split) <;> simp

/-- The evaluated path never changes the configuration. -/
theorem evalRecord_config (s : Shield) (tx : TransactionRecord) (now : Int) :
    (evalRecord s tx now).shield.config = s.config := by
  unfold evalRecord
  cases validate_transaction s tx <;> dsimp only <;> (try split) <;> rfl

/-- After an evaluated call the record either just tripped (Open with
fresh trigger timestamps), kept its state with its old timestamps, or
closed from HalfOpen with its old timestamps. -/
theorem evalRecord_state_cases (s : Shield) (tx : TransactionRecord) (now : Int) :
    ((evalRecord s tx now).shield.state = CircuitState.Open
      ∧ (evalRecord s tx now).shield.last_triggered_at = now
      ∧ (evalRecord s tx now).shield.cooldown_ends_at =
          wrapI64 (now + s.config.cooldown_seconds))
    ∨ ((evalRecord s tx now).shield.state = s.state
      ∧ (evalRecord s tx now).shield.last_triggered_at = s.last_triggered_at
      ∧ (evalRecord s tx now).shield.cooldown_ends_at = s.cooldown_ends_at)
    ∨ ((evalRecord s tx now).shield.state = CircuitState.Closed
      ∧ (evalRecord s tx now).shield.last_triggered_at = s.last_triggered_at
      ∧ (evalRecord s tx now).shield.cooldown_ends_at = s.cooldown_ends_at) := by
  unfold evalRecord
  cases validate_transaction s tx <;> dsimp only <;> (try split) <;> simp

/-- Counter effect of one `record_transaction` call: either an
open-circuit rejection (no evaluation, total unchanged, blocked bumped),
or an evaluated call (total bumped, blocked bumped at most once). -/
theorem record_transaction_counters (s : Shield) (tx : TransactionRecord) (now : Int) :
    ((record_transaction s tx now).policy_evals = 0
      ∧ (record_transaction s tx now).shield.total_transactions = s.total_transactions
      ∧ (record_transaction s tx now).shield.blocked_transactions =
          wrapU64 (s.blocked_transactions + 1))
    ∨ ((record_transaction s tx now).policy_evals = 1
      ∧ (record_transaction s tx now).shield.total_transactions =
          wrapU64 (s.total_transactions + 1)
      ∧ ((record_transaction s tx now).shield.blocked_transactions = s.blocked_transactions
        ∨ (record_transaction s tx now).shield.blocked_transactions =
            wrapU64 (s.blocked_transactions + 1))) := by
  unfold record_transaction
  split
  · split
    · left; exact ⟨rfl, rfl, rfl⟩
    · right
      exact ⟨evalRecord_policy_evals _ tx now, evalRecord_total _ tx now,
        evalRecord_blocked _ tx now⟩
  · right
    exact ⟨evalRecord_policy_evals _ tx now, evalRecord_total _ tx now,
      evalRecord_blocked _ tx now⟩

/-- One operation preserves the ghost counter invariant while no
counter can wrap. -/
theorem invG_step (op : Op) (sg : Shield × Nat) (n : Nat)
    (hinv : InvG sg n) (hn : n + 1 < 2 ^ 64) : InvG (applyOpG sg op) (n + 1) := by
  obtain ⟨h1, h2, h3, h4⟩ := hinv
  cases op with
  | record tx now =>
    have e : applyOpG sg (Op.record tx now) =
        ((record_transaction sg.1 tx now).shield,
          if (record_transaction sg.1 tx now).policy_evals = 0 then sg.2 + 1 else sg.2) := rfl
    rw [e]
    have ht1 : wrapU64 (sg.1.total_transactions + 1) = sg.1.total_transactions + 1 :=
      wrapU64_eq_of_lt (by omega)
    have hb1 : wrapU64 (sg.1.blocked_transactions + 1) = sg.1.blocked_transactions + 1 :=
      wrapU64_eq_of_lt (by omega)
    rcases record_transaction_counters sg.1 tx now with ⟨hp, ht, hb⟩ | ⟨hp, ht, hb⟩
    · refine ⟨?_, ?_, ?_, ?_⟩ <;> (try simp only [hp, ht, hb, ht1, hb1, if_pos]) <;>
        (try simp) <;> omega
    · rcases hb with hb | hb <;>
        (refine ⟨?_, ?_, ?_, ?_⟩ <;> (try simp only [hp, ht, hb, ht1, hb1]) <;>
          (try simp) <;> omega)
  | trigger now =>
    exact ⟨h1, le_trans h2 (Nat.le_succ n), le_trans h3 (Nat.le_succ n),
      le_trans h4 (Nat.le_succ n)⟩
  | reset =>
    exact ⟨h1, le_trans h2 (Nat.le_succ n), le_trans h3 (Nat.le_succ n),
      le_trans h4 (Nat.le_succ n)⟩
  | updateCfg c =>
    exact ⟨h1, le_trans h2 (Nat.le_succ n), le_trans h3 (Nat.le_succ n),
      le_trans h4 (Nat.le_succ n)⟩

/-- The ghost counter invariant carries over whole traces shorter than
the u64 wrap point. -/
theorem invG_fold (ops : List Op) :
    ∀ (sg : Shield × Nat) (n : Nat), InvG sg n → n + ops.length < 2 ^ 64 →
      InvG (applyOpsG sg ops) (n + ops.length) := by
  induction ops with
  | nil => intro sg n h _; simpa [applyOpsG] using h
  | cons op ops ih =>
    intro sg n h hlen
    have hstep : InvG (applyOpG sg op) (n + 1) := by
      refine invG_step op sg n h ?_
      simp only [List.length_cons] at hlen
      omega
    have hrest := ih (applyOpG sg op) (n + 1) hstep (by
      simp only [List.length_cons] at hlen
      omega)
    have e : applyOpsG sg (op :: ops) = applyOpsG (applyOpG sg op) ops := rfl
    rw [e]
    have e2 : n + (op :: ops).length = n + 1 + ops.length := by
      simp [List.length_cons]
      omega
    rw [e2]
    exact hrest

/-- If an evaluated call zeroes a nonzero in-range anomaly counter, the
verdict was either Allowed applied in HalfOpen (the probe-success reset)
or an Anomaly increment wrapping around from 255. -/
theorem evalRecord_count_zero (s : Shield) (tx : TransactionRecord) (now : Int)
    (hne : s.anomaly_count ≠ 0) (hlt : s.anomaly_count < 256)
    (h0 : (evalRecord s tx now).shield.anomaly_count = 0) :
    (validate_transaction s tx = ValidationResult.Allowed ∧ s.state = CircuitState.HalfOpen)
    ∨ (s.anomaly_count = 255 ∧ isAnomaly (validate_transaction s tx) = true) := by
  cases hv : validate_transaction s tx with
  | Allowed =>
    left
    refine ⟨rfl, ?_⟩
    simp only [evalRecord, hv] at h0
    split at h0
    · rename_i hh
      exact hh
    · exact absurd h0 hne
  | Anomaly r =>
    right
    simp only [evalRecord, hv] at h0
    have hc : wrapU8 (s.anomaly_count + 1) = 0 := by
      split at h0
      · exact h0
      · exact h0
    have e8 : (2 : Nat) ^ 8 = 256 := by norm_num
    unfold wrapU8 at hc
    rw [e8] at hc
    refine ⟨by omega, by simp [isAnomaly]⟩
  | Blocked r =>
    simp only [evalRecord, hv] at h0
    exact absurd h0 hne

/-- The evaluated path preserves the Open-cooldown invariant when it
starts outside Open with a good configuration and bounded timestamp. -/
theorem openInv_eval (s : Shield) (tx : TransactionRecord) (now : Int)
    (hcfg : goodCfg s.config) (hs : s.state ≠ CircuitState.Open)
    (hn0 : 0 ≤ now) (hn1 : now < 2 ^ 62) : openInv (evalRecord s tx now).shield := by
  constructor
  · show goodCfg (evalRecord s tx now).shield.config
    rw [evalRecord_config]
    exact hcfg
  · intro ho
    rcases evalRecord_state_cases s tx now with ⟨h1, h2, h3⟩ | ⟨h1, h2, h3⟩ | ⟨h1, h2, h3⟩
    · rw [h2, h3]
      exact now_lt_wrap_cooldown hcfg.1 hcfg.2 hn0 hn1
    · rw [h1] at ho
      exact absurd ho hs
    · rw [h1] at ho
      exact absurd ho (by decide)

/-- Every good operation preserves the Open-cooldown invariant. -/
theorem openInv_step (op : Op) (s : Shield) (hg : goodOp op) (hinv : openInv s) :
    openInv (applyOp s op) := by
  obtain ⟨hcfg, hopen⟩ := hinv
  cases op with
  | record tx now =>
    obtain ⟨hn0, hn1⟩ := hg
    show openInv (record_transaction s tx now).shield
    unfold record_transaction
    split
    · split
      · exact ⟨hcfg, hopen⟩
      · exact openInv_eval { s with state := CircuitState.HalfOpen } tx now hcfg
          (by simp) hn0 hn1
    · rename_i hno
      exact openInv_eval s tx now hcfg hno hn0 hn1
  | trigger now =>
    obtain ⟨hn0, hn1⟩ := hg
    refine ⟨hcfg, fun _ => ?_⟩
    show now < wrapI64 (now + s.config.cooldown_seconds)
    exact now_lt_wrap_cooldown hcfg.1 hcfg.2 hn0 hn1
  | reset =>
    refine ⟨hcfg, fun ho => ?_⟩
    simp [applyOp, reset_circuit_breaker] at ho
  | updateCfg c => exact ⟨hg, fun ho => hopen ho⟩

/-- The Open-cooldown invariant carries over whole traces of good
operations. -/
theorem openInv_fold (ops : List Op) :
    ∀ s : Shield, openInv s → (∀ op ∈ ops, goodOp op) → openInv (applyOps s ops) := by
  induction ops with
  | nil => intro s h _; simpa [applyOps] using h
  | cons op ops ih =>
    intro s h hops
    have e : applyOps s (op :: ops) = applyOps (applyOp s op) ops := rfl
    rw [e]
    exact ih (applyOp s op) (openInv_step op s (hops op (by simp)) h)
      (fun o ho => hops o (by simp [ho]))

/-- Claim C1, counterexample: a reachable record with
`total_transactions < blocked_transactions`. One anomaly trips the
breaker (total = 1), then two calls during the cooldown are rejected
without evaluation (blocked = 2, total unchanged). -/
theorem C1_counterexample :
    (applyOps (initShield 0 1 cfgA 0 0) opsC1).total_transactions <
      (applyOps (initShield 0 1 cfgA 0 0) opsC1).blocked_transactions := by decide

/-- Claim C1, amended: for every record reachable from `initialize` by
fewer than 2^64 operations, `blocked_transactions` never exceeds
`total_transactions` plus the number of calls rejected purely because
the circuit was Open. -/
theorem C1_total_bounds_blocked (a w : Pubkey) (cfg : ShieldConfig) (t : Int) (b : Nat)
    (ops : List Op) (h : ops.length < 2 ^ 64) :
    (applyOpsG (initShield a w cfg t b, 0) ops).1.blocked_transactions ≤
      (applyOpsG (initShield a w cfg t b, 0) ops).1.total_transactions +
        (applyOpsG (initShield a w cfg t b, 0) ops).2 := by
  have h0 : InvG (initShield a w cfg t b, 0) 0 :=
    ⟨Nat.le_refl 0, Nat.le_refl 0, Nat.le_refl 0, Nat.le_refl 0⟩
  have hfold := invG_fold ops (initShield a w cfg t b, 0) 0 h0 (by omega)
  exact hfold.1

/-- Witness for C1: the amended bound evaluated on the counterexample
trace itself. -/
theorem C1_total_bounds_blocked_witness :
    (applyOpsG (initShield 0 1 cfgA 0 0, 0) opsC1).1.blocked_transactions ≤
      (applyOpsG (initShield 0 1 cfgA 0 0, 0) opsC1).1.total_transactions +
        (applyOpsG (initShield 0 1 cfgA 0 0, 0) opsC1).2 :=
  C1_total_bounds_blocked 0 1 cfgA 0 0 opsC1 (by decide)

/-- Claim C2: `validate_transaction` classifies every transaction by the
spec's first-match-wins rule order (blocklist, allowlist, max value,
approval threshold, allow), and a blocklisted destination is always
Blocked. -/
theorem C2_rule_order (s : Shield) (tx : TransactionRecord) :
    (firstMatchRule s.config tx = PolicyRule.blockedBlocklist →
      validate_transaction s tx = ValidationResult.Blocked "Program is in blocklist")
    ∧ (firstMatchRule s.config tx = PolicyRule.anomalyAllowlist →
      validate_transaction s tx = ValidationResult.Anomaly "Program not in allowlist")
    ∧ (firstMatchRule s.config tx = PolicyRule.anomalyMaxValue →
      validate_transaction s tx = ValidationResult.Anomaly
        ("Transaction value " ++ toString tx.value ++ " exceeds max "
          ++ toString s.config.max_transaction_value))
    ∧ (firstMatchRule s.config tx = PolicyRule.anomalyApproval →
      validate_transaction s tx = ValidationResult.Anomaly
        ("Transaction value " ++ toString tx.value ++ " requires approval (threshold: "
          ++ toString s.config.approval_threshold ++ ")"))
    ∧ (firstMatchRule s.config tx = PolicyRule.allowed →
      validate_transaction s tx = ValidationResult.Allowed)
    ∧ (tx.program_id ∈ s.config.blocked_programs →
      validate_transaction s tx = ValidationResult.Blocked "Program is in blocklist") := by
  unfold validate_transaction firstMatchRule
  split_ifs <;> simp_all <;> (try (split_ifs <;> simp_all)) <;> omega

/-- Witness for C2: program 7 is blocklisted (despite also being
allowlisted and the value being far below every threshold) and is
Blocked. -/
theorem C2_rule_order_witness :
    txW.program_id ∈ (initShield 0 1 cfgW 0 0).config.blocked_programs
    ∧ validate_transaction (initShield 0 1 cfgW 0 0) txW =
        ValidationResult.Blocked "Program is in blocklist" :=
  ⟨by decide, (C2_rule_order (initShield 0 1 cfgW 0 0) txW).2.2.2.2.2 (by decide)⟩

/-- Claim C3: a call on an Open record during the cooldown returns
Blocked, bumps only `blocked_transactions`, and never invokes the
policy; a call on an Open record after the cooldown behaves exactly like
the same call on the record already moved to HalfOpen and does evaluate;
and in general `total_transactions` is bumped on exactly the calls that
evaluate the policy. -/
theorem C3_open_circuit (s : Shield) (tx : TransactionRecord) (now : Int) :
    ((record_transaction s tx now).policy_evals = 1 ↔
      (record_transaction s tx now).shield.total_transactions =
        wrapU64 (s.total_transactions + 1))
    ∧ (s.state = CircuitState.Open →
      (now < s.cooldown_ends_at →
        record_transaction s tx now =
          { shield := { s with blocked_transactions := wrapU64 (s.blocked_transactions + 1) }
            result := TransactionResult.Blocked
            policy_evals := 0 })
      ∧ (s.cooldown_ends_at ≤ now →
        record_transaction s tx now =
          record_transaction { s with state := CircuitState.HalfOpen } tx now
        ∧ (record_transaction s tx now).policy_evals = 1)) := by
  constructor
  · unfold record_transaction
    split
    · split
      · simp only []
        constructor
        · intro h; exact absurd h (by simp)
        · intro h; exact absurd h.symm (wrapU64_succ_ne s.total_transactions)
      · simpa using ⟨fun _ => evalRecord_total _ tx now, fun _ => evalRecord_policy_evals _ tx now⟩
    · simpa using ⟨fun _ => evalRecord_total _ tx now, fun _ => evalRecord_policy_evals _ tx now⟩
  · intro hOpen
    constructor
    · intro hlt
      simp [record_transaction, hOpen, hlt]
    · intro hge
      have hnl : ¬ now < s.cooldown_ends_at := not_lt.mpr hge
      constructor
      · simp [record_transaction, hOpen, hnl]
      · simp [record_transaction, hOpen, hnl, evalRecord_policy_evals]

/-- Witness for C3: a concrete Open record with a pending cooldown
rejects a call at time 5 without evaluation. -/
theorem C3_open_circuit_witness :
    sOpenW.state = CircuitState.Open ∧ (5 : Int) < sOpenW.cooldown_ends_at ∧
    record_transaction sOpenW txA 5 =
      { shield := { sOpenW with blocked_transactions := wrapU64 (sOpenW.blocked_transactions + 1) }
        result := TransactionResult.Blocked
        policy_evals := 0 } :=
  ⟨by decide, by decide, ((C3_open_circuit sOpenW txA 5).2 (by decide)).1 (by decide)⟩

/-- Claim C4: in Closed or HalfOpen, an Anomaly verdict returns Flagged
and performs the u8 increment of `anomaly_count`; if the incremented
count reaches the threshold, the same call opens the circuit with
`last_triggered_at = now` and `cooldown_ends_at = now + cooldown_seconds`
(i64 addition). -/
theorem C4_anomaly_flags_and_trips (s : Shield) (tx : TransactionRecord) (now : Int)
    (reason : String)
    (hstate : s.state = CircuitState.Closed ∨ s.state = CircuitState.HalfOpen)
    (hv : validate_transaction s tx = ValidationResult.Anomaly reason) :
    (record_transaction s tx now).result = TransactionResult.Flagged
    ∧ (record_transaction s tx now).shield.anomaly_count = wrapU8 (s.anomaly_count + 1)
    ∧ (wrapU8 (s.anomaly_count + 1) ≥ s.config.anomaly_threshold →
      (record_transaction s tx now).shield.state = CircuitState.Open
      ∧ (record_transaction s tx now).shield.last_triggered_at = now
      ∧ (record_transaction s tx now).shield.cooldown_ends_at =
          wrapI64 (now + s.config.cooldown_seconds)) := by
  have hne : ¬ s.state = CircuitState.Open := by
    rcases hstate with h | h <;> simp [h]
  have hrec : record_transaction s tx now = evalRecord s tx now := by
    simp [record_transaction, hne]
  rw [hrec]
  unfold evalRecord
  rw [hv]
  dsimp only
  split
  · exact ⟨rfl, rfl, fun _ => ⟨rfl, rfl, rfl⟩⟩
  · rename_i hlt
    refine ⟨rfl, rfl, fun hge => absurd hge ?_⟩
    simpa using hlt

/-- Witness for C4: a freshly initialized record with threshold 1 flags
an over-limit transaction and trips in the same call. -/
theorem C4_anomaly_flags_and_trips_witness :
    validate_transaction (initShield 0 1 cfgB 0 0) txA =
      ValidationResult.Anomaly "Transaction value 1 exceeds max 0"
    ∧ ((record_transaction (initShield 0 1 cfgB 0 0) txA 0).result = TransactionResult.Flagged
      ∧ (record_transaction (initShield 0 1 cfgB 0 0) txA 0).shield.anomaly_count =
          wrapU8 ((initShield 0 1 cfgB 0 0).anomaly_count + 1)
      ∧ (wrapU8 ((initShield 0 1 cfgB 0 0).anomaly_count + 1) ≥
            (initShield 0 1 cfgB 0 0).config.anomaly_threshold →
        (record_transaction (initShield 0 1 cfgB 0 0) txA 0).shield.state = CircuitState.Open
        ∧ (record_transaction (initShield 0 1 cfgB 0 0) txA 0).shield.last_triggered_at = 0
        ∧ (record_transaction (initShield 0 1 cfgB 0 0) txA 0).shield.cooldown_ends_at =
            wrapI64 (0 + (initShield 0 1 cfgB 0 0).config.cooldown_seconds))) :=
  ⟨by decide, C4_anomaly_flags_and_trips (initShield 0 1 cfgB 0 0) txA 0
    "Transaction value 1 exceeds max 0" (Or.inl rfl) (by decide)⟩

/-- Claim C5, counterexample: a reachable record with anomaly_count 255
(255 anomaly probes with a zero cooldown) on which a Flagged
record_transaction outcome — neither a reset nor a HalfOpen-to-Closed
transition on an Allowed verdict — sets anomaly_count to 0 by u8
wraparound. -/
theorem C5_counterexample :
    (anomalyTrace 255).anomaly_count = 255
    ∧ (record_transaction (anomalyTrace 255) txA 0).shield.anomaly_count = 0
    ∧ (record_transaction (anomalyTrace 255) txA 0).result = TransactionResult.Flagged
    ∧ (record_transaction (anomalyTrace 255) txA 0).shield.state = CircuitState.HalfOpen := by
  set_option maxRecDepth 100000 in decide

/-- Claim C5, amended: reset zeroes anomaly_count; manual trigger and
update_config leave it unchanged; and a record_transaction call that
zeroes a nonzero in-range anomaly_count is either the
HalfOpen-to-Closed reset on an Allowed verdict (including when HalfOpen
was just entered from Open on cooldown expiry) or the u8 wraparound of
an Anomaly increment at anomaly_count 255. -/
theorem C5_anomaly_count_zero_events (s : Shield) (tx : TransactionRecord) (now : Int)
    (c : ShieldConfig) :
    (reset_circuit_breaker s).anomaly_count = 0
    ∧ (trigger_circuit_breaker s now).anomaly_count = s.anomaly_count
    ∧ (update_config s c).anomaly_count = s.anomaly_count
    ∧ (s.anomaly_count ≠ 0 → s.anomaly_count < 256 →
        (record_transaction s tx now).shield.anomaly_count = 0 →
        (validate_transaction s tx = ValidationResult.Allowed
          ∧ (s.state = CircuitState.HalfOpen ∨ s.state = CircuitState.Open))
        ∨ (s.anomaly_count = 255 ∧ isAnomaly (validate_transaction s tx) = true)) := by
  refine ⟨rfl, rfl, rfl, fun hne hlt h0 => ?_⟩
  by_cases hOpen : s.state = CircuitState.Open
  · by_cases hcd : now < s.cooldown_ends_at
    · have he : (record_transaction s tx now).shield.anomaly_count = s.anomaly_count := by
        simp [record_transaction, hOpen, hcd]
      rw [he] at h0
      exact absurd h0 hne
    · have he : record_transaction s tx now =
          evalRecord { s with state := CircuitState.HalfOpen } tx now := by
        simp [record_transaction, hOpen, hcd]
      rw [he] at h0
      rcases evalRecord_count_zero { s with state := CircuitState.HalfOpen } tx now
          hne hlt h0 with ⟨hv, _⟩ | ⟨h255, hA⟩
      · rw [validate_transaction_state_irrel] at hv
        exact Or.inl ⟨hv, Or.inr hOpen⟩
      · rw [validate_transaction_state_irrel] at hA
        exact Or.inr ⟨h255, hA⟩
  · have he : record_transaction s tx now = evalRecord s tx now := by
      simp [record_transaction, hOpen]
    rw [he] at h0
    rcases evalRecord_count_zero s tx now hne hlt h0 with ⟨hv, hh⟩ | ⟨h255, hA⟩
    · exact Or.inl ⟨hv, Or.inl hh⟩
    · exact Or.inr ⟨h255, hA⟩

/-- Witness for C5: the saturated record, on an anomaly, lands in the
wraparound case of the amended claim. -/
theorem C5_anomaly_count_zero_events_witness :
    (validate_transaction s255W txA = ValidationResult.Allowed
      ∧ (s255W.state = CircuitState.HalfOpen ∨ s255W.state = CircuitState.Open))
    ∨ (s255W.anomaly_count = 255 ∧ isAnomaly (validate_transaction s255W txA) = true) :=
  (C5_anomaly_count_zero_events s255W txA 0 cfgA).2.2.2 (by decide) (by decide) (by decide)

/-- Claim C6, counterexample: with cooldown_seconds = 0 a manual trigger
reaches an Open record whose cooldown_ends_at equals (does not exceed)
last_triggered_at. -/
theorem C6_counterexample :
    (applyOps (initShield 0 1 cfgB 0 0) [Op.trigger 5]).state = CircuitState.Open
    ∧ ¬ (applyOps (initShield 0 1 cfgB 0 0) [Op.trigger 5]).last_triggered_at <
        (applyOps (initShield 0 1 cfgB 0 0) [Op.trigger 5]).cooldown_ends_at := by decide

/-- Claim C6, amended: for every record reachable from `initialize`
under positive, overflow-safe cooldowns (every configuration's
cooldown_seconds in (0, 2^62)) and bounded non-negative timestamps
(in [0, 2^62)), state = Open implies
last_triggered_at < cooldown_ends_at. -/
theorem C6_open_cooldown_invariant (a w : Pubkey) (cfg : ShieldConfig) (t : Int) (b : Nat)
    (ops : List Op) (hc : goodCfg cfg) (hops : ∀ op ∈ ops, goodOp op)
    (ho : (applyOps (initShield a w cfg t b) ops).state = CircuitState.Open) :
    (applyOps (initShield a w cfg t b) ops).last_triggered_at <
      (applyOps (initShield a w cfg t b) ops).cooldown_ends_at := by
  have h0 : openInv (initShield a w cfg t b) :=
    ⟨hc, fun h => by simp [initShield] at h⟩
  exact (openInv_fold ops (initShield a w cfg t b) h0 hops).2 ho

/-- Witness for C6: a manual trigger at time 5 with a 60-second cooldown
leaves last_triggered_at strictly below cooldown_ends_at. -/
theorem C6_open_cooldown_invariant_witness :
    (applyOps (initShield 0 1 cfgA 0 0) [Op.trigger 5]).last_triggered_at <
      (applyOps (initShield 0 1 cfgA 0 0) [Op.trigger 5]).cooldown_ends_at :=
  C6_open_cooldown_invariant 0 1 cfgA 0 0 [Op.trigger 5]
    ⟨by decide, by decide⟩
    (by
      intro op hop
      have hop5 : op = Op.trigger 5 := by simpa using hop
      subst hop5
      exact ⟨by decide, by decide⟩)
    (by decide)

/-- Claim C7: reset_circuit_breaker is idempotent — applying it twice
yields exactly the record obtained by applying it once. -/
theorem C7_reset_idempotent (s : Shield) :
    reset_circuit_breaker (reset_circuit_breaker s) = reset_circuit_breaker s := rfl

/-- Claim C8: update_config replaces the configuration wholesale — the
stored configuration afterwards is exactly the one written, and every
other field of the record is unchanged. -/
theorem C8_update_config_wholesale (s : Shield) (c : ShieldConfig) :
    (update_config s c).config = c
    ∧ (update_config s c).state = s.state
    ∧ (update_config s c).anomaly_count = s.anomaly_count
    ∧ (update_config s c).total_transactions = s.total_transactions
    ∧ (update_config s c).blocked_transactions = s.blocked_transactions
    ∧ (update_config s c).last_triggered_at = s.last_triggered_at
    ∧ (update_config s c).cooldown_ends_at = s.cooldown_ends_at
    ∧ (update_config s c).created_at = s.created_at
    ∧ (update_config s c).authority = s.authority
    ∧ (update_config s c).agent_wallet = s.agent_wallet
    ∧ (update_config s c).bump = s.bump :=
  ⟨rfl, rfl, rfl, rfl, rfl, rfl, rfl, rfl, rfl, rfl, rfl⟩

/-- Claim C9: every administrative call whose caller is not the record's
authority is refused (no updated record is committed, the stored record
stays as it was). -/
theorem C9_authority_required (caller : Pubkey) (s : Shield) (c : ShieldConfig) (now : Int)
    (h : caller ≠ s.authority) :
    update_config_checked caller s c = none
    ∧ trigger_circuit_breaker_checked caller s now = none
    ∧ reset_circuit_breaker_checked caller s = none
    ∧ close_shield_checked caller s = none := by
  simp [update_config_checked, trigger_circuit_breaker_checked,
    reset_circuit_breaker_checked, close_shield_checked, h]

/-- Witness for C9: caller 9 is not the authority (0) and all four
administrative calls are refused. -/
theorem C9_authority_required_witness :
    update_config_checked 9 (initShield 0 1 cfgA 0 0) cfgB = none
    ∧ trigger_circuit_breaker_checked 9 (initShield 0 1 cfgA 0 0) 0 = none
    ∧ reset_circuit_breaker_checked 9 (initShield 0 1 cfgA 0 0) = none
    ∧ close_shield_checked 9 (initShield 0 1 cfgA 0 0) = none :=
  C9_authority_required 9 (initShield 0 1 cfgA 0 0) cfgB 0 (by decide)

/-- Claim C10: refuted — after 255 reachable anomaly probes the u8
increment executes with anomaly_count = 255: the call is evaluated
(policy_evals = 1), takes the Anomaly branch (Flagged), and the
increment wraps the counter to 0. -/
theorem C10_overflow_reachable :
    (anomalyTrace 255).anomaly_count = 255
    ∧ (record_transaction (anomalyTrace 255) txA 0).policy_evals = 1
    ∧ (record_transaction (anomalyTrace 255) txA 0).result = TransactionResult.Flagged
    ∧ (record_transaction (anomalyTrace 255) txA 0).shield.anomaly_count = 0 := by
  set_option maxRecDepth 100000 in decide

end CircuitBreaker
